import Mathlib

/-!
# Verification of the MP4 transcode orchestration engine

Shallow embedding of `conversor_video_a_MP4.py`: the duration prober
(`get_media_duration`), the bitrate allocation arithmetic and two-pass
orchestration (`convert_to_target_size`), the command builder
(`build_ffmpeg_command`) and the process runner
(`run_command_show_progress`).

External effects (child processes, the filesystem, the temp-file name)
are modeled by explicit environment records: an `Option` field whose
value is `none` models the corresponding Python call raising an
exception; a `SpawnOutcome` models either a failed `Popen` launch
(`FileNotFoundError`) or a child that ran, with its stderr lines and
exit code.  Python floats are modeled as exact rationals (`ℚ`), the
standard idealization; none of the verified properties depend on
binary-float rounding.  Python string operations (`split`, `strip`,
slicing) are re-implemented structurally over `List Char` so that every
definition evaluates inside the kernel.
-/

namespace Conversor

/-! ## Python string primitives, structural over `List Char` -/

namespace PyStr

/-- Splitting worker: walk the characters with a fuel bound (the input
length, since every step consumes at least one character), cutting at
each occurrence of the separator, left to right and non-overlapping —
the semantics of Python `str.split(sep)` for a nonempty `sep`. -/
def splitAux (sep : List Char) : ℕ → List Char → List Char → List (List Char)
  | _, [], acc => [acc.reverse]
  | 0, _ :: _, acc => [acc.reverse]
  | n + 1, c :: cs, acc =>
    if sep.isPrefixOf (c :: cs) then
      acc.reverse :: splitAux sep n (List.drop sep.length (c :: cs)) []
    else
      splitAux sep n cs (c :: acc)

/-- Python `s.split(sep)` for a nonempty separator. -/
def split (s sep : String) : List String :=
  if sep.data = [] then [s]
  else (splitAux sep.data s.data.length s.data []).map String.mk

/-- Python `s.strip()`: remove leading and trailing whitespace. -/
def strip (s : String) : String :=
  String.mk (((s.data.dropWhile Char.isWhitespace).reverse.dropWhile
    Char.isWhitespace).reverse)

/-- Python `s.startswith(p)`. -/
def startsWith (s p : String) : Bool :=
  p.data.isPrefixOf s.data

/-- Python `s[n:]`. -/
def dropChars (s : String) (n : ℕ) : String :=
  String.mk (s.data.drop n)

/-- Python `s[:n]`. -/
def takeChars (s : String) (n : ℕ) : String :=
  String.mk (s.data.take n)

end PyStr

/-! ## Decimal parsing (Python `float(...)` on plain decimal literals) -/

/-- Parse a nonempty all-digit character list as a natural number. -/
def parseDigits (cs : List Char) : Option ℕ :=
  if cs ≠ [] ∧ cs.all Char.isDigit then
    some (cs.foldl (fun n c => 10 * n + (c.toNat - 48)) 0)
  else none

/-- The components of a plain decimal literal: sign, integer-part
value, fraction-part value, and number of fraction digits. -/
structure DecParts where
  neg : Bool
  ip : ℕ
  fp : ℕ
  fplen : ℕ
deriving DecidableEq, Repr

/-- Recognize the decimal literals accepted by Python `float()`:
optional surrounding whitespace, optional sign, digits with at most one
decimal point (at least one digit overall).  Exponent forms, `inf`,
`nan` and underscores are not modeled — never produced by the inputs of
interest here. -/
def parseDecimalParts (s : String) : Option DecParts :=
  let t := PyStr.strip s
  let neg := PyStr.startsWith t "-"
  let body := if PyStr.startsWith t "-" || PyStr.startsWith t "+" then
    PyStr.dropChars t 1 else t
  match PyStr.split body "." with
  | [ip] => (parseDigits ip.data).map (fun n => ⟨neg, n, 0, 0⟩)
  | [ip, fp] =>
    if ip.data = [] ∧ fp.data = [] then none
    else
      match (if ip.data = [] then some 0 else parseDigits ip.data),
            (if fp.data = [] then some 0 else parseDigits fp.data) with
      | some i, some f => some ⟨neg, i, f, fp.data.length⟩
      | _, _ => none
  | _ => none

/-- The rational value of a decimal literal. -/
def DecParts.toRat (p : DecParts) : ℚ :=
  (if p.neg then -1 else 1) * ((p.ip : ℚ) + (p.fp : ℚ) / (10 : ℚ) ^ p.fplen)

/-- Python `float(s)` on a plain decimal literal, as an exact rational. -/
def parseDecimal (s : String) : Option ℚ :=
  (parseDecimalParts s).map DecParts.toRat

/-! ## MediaProber: `get_media_duration` -/

/-- `h, m, s = part.split(":")` followed by
`float(h) * 3600.0 + float(m) * 60.0 + float(s)`; a list that is not
exactly three fields, or a field `float()` rejects, raises in Python
(caught by the caller), modeled as `none`. -/
def hmsToSeconds (parts : List String) : Option ℚ :=
  match parts with
  | [h, m, s] => do
    let hq ← parseDecimal h
    let mq ← parseDecimal m
    let sq ← parseDecimal s
    pure (hq * 3600 + mq * 60 + sq)
  | _ => none

/-- The string surgery of one fallback-loop iteration: if the line
contains `"Duration:"`, take the text after it up to the first comma,
strip it, and split it on `":"`.  (`line.split("Duration:")[1]` — the
segment after the first occurrence — then `.split(",")[0].strip()`,
then `.split(":")`.) -/
def extractHMS (line : String) : Option (List String) :=
  match PyStr.split line "Duration:" with
  | _ :: rest :: _ =>
    some (PyStr.split (PyStr.strip ((PyStr.split rest ",").headD "")) ":")
  | _ => none

/-- One iteration of the fallback loop body; any parse failure inside
the iteration is swallowed (`except Exception: pass`), modeled as
`none`. -/
def parseDurationLine (line : String) : Option ℚ :=
  (extractHMS line).bind hmsToSeconds

/-- The fallback loop over the stderr lines of `ffmpeg -i`: the first
line that yields a duration wins; lines that fail to parse are
skipped. -/
def scanDurationLines : List String → Option ℚ
  | [] => none
  | l :: ls =>
    match parseDurationLine l with
    | some d => some d
    | none => scanDurationLines ls

/-- Environment for `get_media_duration`: outcomes of the two external
queries.  `ffprobeRun = none` / `ffmpegInfoRun = none` model the
corresponding `subprocess.run` raising (e.g. the binary missing). -/
structure ProbeEnv where
  /-- `shutil.which(FFPROBE_PATH)` is truthy. -/
  ffprobeOnPath : Bool
  /-- Outcome of the structured `ffprobe` query: return code and stdout. -/
  ffprobeRun : Option (Int × String)
  /-- Outcome of `ffmpeg -i input`: its stderr text. -/
  ffmpegInfoRun : Option String

/-- The structured-query arm: run `ffprobe`, and on exit code 0 with
nonempty stripped stdout parse it as a float; any failure (binary
absent, raise, non-zero exit, empty or unparsable output) falls through
to the textual fallback. -/
def probe_via_ffprobe (env : ProbeEnv) : Option ℚ :=
  if env.ffprobeOnPath then
    match env.ffprobeRun with
    | some (rc, out) =>
      if rc = 0 ∧ PyStr.strip out ≠ "" then parseDecimal (PyStr.strip out)
      else none
    | none => none
  else none

/-- The textual-fallback arm: scan the stderr of `ffmpeg -i`, split
into lines, for a `Duration:` field.  (Python `splitlines()`; its
universal-newline handling beyond `"\n"` is not modeled.) -/
def probe_via_ffmpeg (env : ProbeEnv) : Option ℚ :=
  match env.ffmpegInfoRun with
  | some err => scanDurationLines (PyStr.split err "\n")
  | none => none

/-- `get_media_duration`: structured query first, textual fallback
second, explicit unknown (`none`) when both fail.  Total over every
environment, including those in which both external calls raise — the
Python function catches every exception internally. -/
def get_media_duration (env : ProbeEnv) : Option ℚ :=
  match probe_via_ffprobe env with
  | some d => some d
  | none => probe_via_ffmpeg env

/-! ## BitrateAllocator (lines 178–194 of `convert_to_target_size`) -/

/-- `{videoKbps, audioKbps}` as computed for the two-pass encode. -/
structure BitrateBudget where
  videoKbps : ℤ
  audioKbps : ℤ
deriving DecidableEq, Repr

/-- The target-size arithmetic: `kilobits_total = target_mb * 8192.0`,
`kbps_total = kilobits_total / duration`,
`video_kbps = kbps_total - audio_kbps` raised to the floor value `100`
when below it, then `int(math.floor(...))`. -/
def videoKbpsFor (target_mb duration : ℚ) (audio_bitrate_k : ℤ) : ℤ :=
  let kilobits_total := target_mb * 8192
  let kbps_total := kilobits_total / duration
  let audio_kbps : ℚ := (audio_bitrate_k : ℚ)
  let video_kbps := kbps_total - audio_kbps
  let video_kbps := if video_kbps < 100 then (100 : ℚ) else video_kbps
  ⌊video_kbps⌋

/-- Message raised when the duration is unknown or non-positive. -/
def durationErrMsg : String :=
  "No se pudo determinar la duración del archivo; no se puede calcular bitrate para tamaño objetivo."

/-- The allocation step of `convert_to_target_size`: reject an unknown
or non-positive duration (`raise RuntimeError`, modeled as `.error`),
otherwise produce the budget; `audio_bitrate_k` passes through
`int(...)` unchanged (callers supply an integer). -/
def allocate (target_mb : ℚ) (duration : Option ℚ) (audio_bitrate_k : ℤ) :
    Except String BitrateBudget :=
  match duration with
  | none => .error durationErrMsg
  | some d =>
    if d ≤ 0 then .error durationErrMsg
    else .ok ⟨videoKbpsFor target_mb d audio_bitrate_k, audio_bitrate_k⟩

/-! ## CommandBuilder -/

/-- `build_ffmpeg_command`: remux (stream copy) when `reencode` is
false, H.264+AAC re-encode driven by `crf` and `preset` when true;
`-movflags +faststart` when `faststart`. -/
def build_ffmpeg_command (ffmpegPath input_path output_path : String)
    (reencode : Bool) (crf : ℤ) (preset : String) (faststart : Bool) :
    List String :=
  let cmd := [ffmpegPath, "-y", "-i", input_path]
  let cmd := cmd ++ (if reencode then
      ["-c:v", "libx264", "-preset", preset, "-crf", toString crf,
       "-pix_fmt", "yuv420p", "-c:a", "aac", "-b:a", "128k"]
    else ["-c", "copy"])
  let cmd := cmd ++ (if faststart then ["-movflags", "+faststart"] else [])
  cmd ++ [output_path]

/-- `"NUL" if os.name == "nt" else "/dev/null"`. -/
def devnull (isWindows : Bool) : String :=
  if isWindows then "NUL" else "/dev/null"

/-- The phase-1 command (line 216): video only (`-an`), statistics
tagged to `passlog`, output discarded to the null sink. -/
def pass1Command (ffmpegPath input_path passlog : String)
    (video_bitrate_k : ℤ) (preset : String) (isWindows : Bool) :
    List String :=
  [ffmpegPath, "-y", "-i", input_path, "-passlogfile", passlog,
   "-c:v", "libx264", "-b:v", toString video_bitrate_k ++ "k",
   "-preset", preset, "-pass", "1", "-an", "-f", "mp4",
   devnull isWindows]

/-- The phase-2 command (lines 225–227): full encode consuming the same
pass log, audio included, output finalized for progressive playback. -/
def pass2Command (ffmpegPath input_path output_path passlog : String)
    (video_bitrate_k audio_bitrate_k : ℤ) (preset : String) :
    List String :=
  [ffmpegPath, "-y", "-i", input_path, "-passlogfile", passlog,
   "-c:v", "libx264", "-b:v", toString video_bitrate_k ++ "k",
   "-preset", preset, "-pass", "2", "-c:a", "aac",
   "-b:a", toString audio_bitrate_k ++ "k", "-movflags", "+faststart",
   output_path]

/-! ## ProcessRunner: `run_command_show_progress` -/

/-- Observable actions of one orchestration run: a diagnostic line
delivered to the `on_line` callback, an attempted child-process launch
with its argument list, and an attempted `os.remove`.  The probing
subprocesses of `get_media_duration` are modeled separately by
`ProbeEnv` and do not appear here. -/
inductive Event where
  | line (s : String)
  | launch (cmd : List String)
  | remove (path : String)
deriving DecidableEq, Repr

/-- Is the event a child-process launch attempt? -/
def Event.isLaunch : Event → Bool
  | .launch _ => true
  | _ => false

/-- Outcome of one `subprocess.Popen`: `fileNotFound` models the launch
raising `FileNotFoundError`; `started` carries the stderr lines the
child wrote and its exit code. -/
inductive SpawnOutcome where
  | fileNotFound
  | started (stderrLines : List String) (rc : Int)
deriving DecidableEq, Repr

/-- Message of the `RuntimeError` raised when `Popen` cannot find the
executable. -/
def launchFailMsg (ffmpegPath : String) : String :=
  "No se encontró ffmpeg en la ruta: " ++ ffmpegPath

/-- `run_command_show_progress`: launch the command; on
`FileNotFoundError` raise `RuntimeError` (modeled as `.error`);
otherwise stream each stderr line to `on_line` (when supplied), wait
for exit, and return `(returncode, "".join(stderr_lines))` — the real
exit code, even when non-zero.  The second component is the list of
observable actions. -/
def run_command_show_progress (ffmpegPath : String) (cmd : List String)
    (out : SpawnOutcome) (hasOnLine : Bool) :
    Except String (Int × String) × List Event :=
  match out with
  | .fileNotFound => (.error (launchFailMsg ffmpegPath), [.launch cmd])
  | .started lines rc =>
    (.ok (rc, String.join lines),
     .launch cmd :: (if hasOnLine then lines.map Event.line else []))

/-! ## TranscodeOrchestrator: `convert_to_target_size` -/

/-- Environment of one two-pass orchestration run: the probing
outcomes, the temp-file name chosen for the pass log, the behavior of
the two encoder children, the pass-log-prefixed files present on disk
after each child ran (the encoder appends suffixes to the prefix;
`tempfile.NamedTemporaryFile(delete=False)` itself creates the bare
prefix file), and which `os.remove` calls succeed. -/
structure OrchEnv where
  probe : ProbeEnv
  passlog : String
  pass1 : SpawnOutcome
  /-- Pass-log-prefixed files on disk after pass 1 ran. -/
  logsAfterPass1 : List String
  pass2 : SpawnOutcome
  /-- Pass-log-prefixed files on disk after pass 2 ran. -/
  logsAfterPass2 : List String
  /-- Whether `os.remove` on the given path succeeds (a failure raises,
  and is swallowed by the cleanup loop). -/
  removeOk : String → Bool

/-- Message of the `RuntimeError` raised when pass 1 exits non-zero:
carries the code and the first 2000 characters of the captured
stderr. -/
def pass1FailMsg (rc : Int) (stderr : String) : String :=
  "Pase 1 de two-pass falló (código " ++ toString rc ++ "). Salida:\n" ++
    PyStr.takeChars stderr 2000

/-- `f"Two-pass: duración {duration:.2f}s, objetivo {target_mb}MB -> video {v}k, audio {a}k\n"`.
Python's binary-float rendering (`:.2f` and `str`) is abstracted by the
canonical rational rendering; no verified property depends on the
rendered digits. -/
def twoPassSummaryMsg (duration target_mb : ℚ) (v a : ℤ) : String :=
  "Two-pass: duración " ++ toString duration ++ "s, objetivo " ++
    toString target_mb ++ "MB -> video " ++ toString v ++ "k, audio " ++
    toString a ++ "k\n"

/-- `"Ejecutando pase 1...\n"`. -/
def msgPass1 : String := "Ejecutando pase 1...\n"

/-- `"Ejecutando pase 2...\n"`. -/
def msgPass2 : String := "Ejecutando pase 2...\n"

/-- `convert_to_target_size`: probe the duration and fail fast when it
is unknown or non-positive; compute the bitrate budget; create the
pass-log temp file; run pass 1 (after the swallowed no-op
`subprocess.run(["-passlogfile"])` of line 212) and raise if it exits
non-zero; run pass 2; then — only on this path — glob and best-effort
delete the pass-log files, and return pass 2's `(rc, stderr)`.

Result: `.error` models a raised `RuntimeError`, `.ok` the returned
pair.  Second component: the observable actions, in order.  Third
component: the pass-log-prefixed files still on disk when the call
ends. -/
def convert_to_target_size (ffmpegPath : String) (isWindows : Bool)
    (input_path output_path : String) (target_mb : ℚ) (preset : String)
    (audio_bitrate_k : ℤ) (hasOnLine : Bool) (env : OrchEnv) :
    Except String (Int × String) × List Event × List String :=
  match get_media_duration env.probe with
  | none => (.error durationErrMsg, [], [])
  | some duration =>
    if duration ≤ 0 then (.error durationErrMsg, [], [])
    else
      let video_bitrate_k := videoKbpsFor target_mb duration audio_bitrate_k
      let passlog := env.passlog
      let msgEvents := if hasOnLine then
          [Event.line (twoPassSummaryMsg duration target_mb video_bitrate_k
             audio_bitrate_k),
           Event.line msgPass1]
        else []
      let ev0 := msgEvents ++ [Event.launch ["-passlogfile"]]
      let cmd1 := pass1Command ffmpegPath input_path passlog video_bitrate_k
        preset isWindows
      let run1 := run_command_show_progress ffmpegPath cmd1 env.pass1 hasOnLine
      match run1.1 with
      | .error e => (.error e, ev0 ++ run1.2, [passlog])
      | .ok (rc, stderr) =>
        let ev1 := ev0 ++ run1.2
        if rc ≠ 0 then
          (.error (pass1FailMsg rc stderr), ev1, env.logsAfterPass1)
        else
          let ev2a := ev1 ++ (if hasOnLine then [Event.line msgPass2] else [])
          let cmd2 := pass2Command ffmpegPath input_path output_path passlog
            video_bitrate_k audio_bitrate_k preset
          let run2 := run_command_show_progress ffmpegPath cmd2 env.pass2
            hasOnLine
          match run2.1 with
          | .error e => (.error e, ev2a ++ run2.2, env.logsAfterPass1)
          | .ok (rc2, stderr2) =>
            let ev2 := ev2a ++ run2.2
            let globbed := env.logsAfterPass2.filter
              (fun f => passlog.data.isPrefixOf f.data)
            let evClean := ev2 ++ globbed.map Event.remove
            let finalLogs := env.logsAfterPass2.filter
              (fun f => !(passlog.data.isPrefixOf f.data && env.removeOk f))
            (.ok (rc2, stderr2), evClean, finalLogs)

end Conversor

/-! ## Concrete environments used by witnesses and counterexamples -/

namespace Conversor

/-- A probe environment whose structured query returns `"60"`. -/
def probeSixty : ProbeEnv := ⟨true, some (0, "60"), none⟩

/-- A probe environment for a missing file: the probe binary is absent
and `ffmpeg -i` raises. -/
def probeDead : ProbeEnv := ⟨false, none, none⟩

/-- An orchestration environment in which the duration cannot be
determined at all. -/
def envDead : OrchEnv :=
  ⟨probeDead, "plog", .started [] 0, [], .started [] 0, [], fun _ => true⟩

/-- An orchestration run on a 60-second source in which pass 1 exits
with code 1 after the encoder created pass-log files `plog` and
`plog-0.log`. -/
def envPass1Fails : OrchEnv :=
  ⟨probeSixty, "plog", .started ["err\n"] 1, ["plog", "plog-0.log"],
   .started [] 0, ["plog", "plog-0.log"], fun _ => true⟩

/-- An orchestration run on a 60-second source in which pass 1 succeeds
and pass 2 runs to completion with exit code 3. -/
def envCleanRun : OrchEnv :=
  ⟨probeSixty, "plog", .started [] 0, ["plog", "plog-0.log"],
   .started ["out\n"] 3, ["plog", "plog-0.log"], fun _ => true⟩

/-- The structured query succeeds with stdout `"83.450000\n"`. -/
def envStructured83 : ProbeEnv := ⟨true, some (0, "83.450000\n"), none⟩

/-- Diagnostic output of `ffmpeg -i` containing a `Duration:` line. -/
def ffmpegInfo83 : String :=
  "Input #0, avi, from in.avi:\n  Duration: 00:01:23.45, start: 0.000000, bitrate: 1372 kb/s\n  Stream #0:0: Video: mpeg4"

/-- The structured query exits non-zero but the textual fallback output
carries a duration line. -/
def envFallback83 : ProbeEnv := ⟨true, some (1, ""), some ffmpegInfo83⟩

/-! ## Helper lemmas -/

/-- The source's raise-to-the-floor conditional is the `max` with 100. -/
lemma ite_floor_eq_max (x : ℚ) : (if x < 100 then (100 : ℚ) else x) = max 100 x := by
  rcases lt_or_le x 100 with h | h
  · rw [if_pos h, max_eq_left h.le]
  · rw [if_neg (not_lt.mpr h), max_eq_right h]

/-- Closed form of the bitrate arithmetic. -/
lemma videoKbpsFor_eq_floor_max (m d : ℚ) (a : ℤ) :
    videoKbpsFor m d a = ⌊max 100 (m * 8192 / d - (a : ℚ))⌋ := by
  simp only [videoKbpsFor]
  rw [ite_floor_eq_max]

/-- `allocate` on a positive duration. -/
lemma allocate_pos (m d : ℚ) (a : ℤ) (hd : 0 < d) :
    allocate m (some d) a = .ok ⟨⌊max 100 (m * 8192 / d - (a : ℚ))⌋, a⟩ := by
  simp only [allocate]
  rw [if_neg (not_le.mpr hd), videoKbpsFor_eq_floor_max]

/-- The arithmetic at the spec's concrete instance:
`floor(10 * 8192 / 120 - 128) = 554`. -/
lemma videoKbpsFor_ten : videoKbpsFor 10 120 128 = 554 := by
  simp only [videoKbpsFor]
  rw [if_neg (by norm_num)]
  rw [Int.floor_eq_iff]
  norm_num

/-- `allocate` at the spec's concrete instance. -/
lemma allocate_ten : allocate 10 (some 120) 128 = .ok ⟨554, 128⟩ := by
  simp only [allocate]
  rw [if_neg (by norm_num), videoKbpsFor_ten]

/-- The probe environment `probeSixty` yields 60 seconds. -/
lemma probeSixty_duration : get_media_duration probeSixty = some 60 := by
  have h : parseDecimalParts "60" = some ⟨false, 60, 0, 0⟩ := by decide
  have hs : PyStr.strip "60" = "60" := by decide
  simp [get_media_duration, probe_via_ffprobe, probeSixty, hs, parseDecimal, h,
    DecParts.toRat]

/-- `float("83.450000")` is exactly 83.45. -/
lemma parseDecimal_8345 : parseDecimal "83.450000" = some (83.45 : ℚ) := by
  have h : parseDecimalParts "83.450000" = some ⟨false, 83, 450000, 6⟩ := by decide
  simp [parseDecimal, h, DecParts.toRat]
  norm_num

/-- `float("00") = 0`. -/
lemma parseDecimal_00 : parseDecimal "00" = some 0 := by
  have h : parseDecimalParts "00" = some ⟨false, 0, 0, 0⟩ := by decide
  simp [parseDecimal, h, DecParts.toRat]

/-- `float("01") = 1`. -/
lemma parseDecimal_01 : parseDecimal "01" = some 1 := by
  have h : parseDecimalParts "01" = some ⟨false, 1, 0, 0⟩ := by decide
  simp [parseDecimal, h, DecParts.toRat]

/-- `float("23.45")` is exactly 23.45. -/
lemma parseDecimal_2345 : parseDecimal "23.45" = some (23.45 : ℚ) := by
  have h : parseDecimalParts "23.45" = some ⟨false, 23, 45, 2⟩ := by decide
  simp [parseDecimal, h, DecParts.toRat]
  norm_num

/-- The fallback converts a parsed `H:MM:SS.ss` triple to
`H*3600 + M*60 + S` seconds. -/
lemma hms_formula (h m s : String) (hq mq sq : ℚ)
    (hh : parseDecimal h = some hq) (hm : parseDecimal m = some mq)
    (hs : parseDecimal s = some sq) :
    hmsToSeconds [h, m, s] = some (hq * 3600 + mq * 60 + sq) := by
  simp [hmsToSeconds, hh, hm, hs]

/-- Structured-query success on `"83.450000"` yields 83.45. -/
lemma structured83 : get_media_duration envStructured83 = some (83.45 : ℚ) := by
  have hs : PyStr.strip "83.450000\n" = "83.450000" := by decide
  simp [get_media_duration, probe_via_ffprobe, envStructured83, hs,
    parseDecimal_8345]

/-- Textual fallback on `ffmpegInfo83` yields 83.45. -/
lemma fallback83 : get_media_duration envFallback83 = some (83.45 : ℚ) := by
  have hsplit : PyStr.split ffmpegInfo83 "\n" =
      ["Input #0, avi, from in.avi:",
       "  Duration: 00:01:23.45, start: 0.000000, bitrate: 1372 kb/s",
       "  Stream #0:0: Video: mpeg4"] := by decide
  have hl1 : parseDurationLine "Input #0, avi, from in.avi:" = none := by decide
  have hl2 : extractHMS "  Duration: 00:01:23.45, start: 0.000000, bitrate: 1372 kb/s" =
      some ["00", "01", "23.45"] := by decide
  have hhms : hmsToSeconds ["00", "01", "23.45"] =
      some ((0 : ℚ) * 3600 + 1 * 60 + 23.45) :=
    hms_formula _ _ _ _ _ _ parseDecimal_00 parseDecimal_01 parseDecimal_2345
  have hdl : parseDurationLine "  Duration: 00:01:23.45, start: 0.000000, bitrate: 1372 kb/s" =
      some (83.45 : ℚ) := by
    rw [parseDurationLine, hl2]
    simp only [Option.some_bind, hhms]
    norm_num
  simp [get_media_duration, probe_via_ffprobe, envFallback83, probe_via_ffmpeg,
    hsplit, scanDurationLines, hl1, hdl]

/-- Diagnostic-line events are not launch events. -/
lemma filter_isLaunch_map_line (ls : List String) :
    (ls.map Event.line).filter Event.isLaunch = [] := by
  induction ls with
  | nil => rfl
  | cons a t ih => simp [Event.isLaunch, ih]

/-- A two-pass run whose pass 1 exits non-zero raises the pass-1
failure message, and its only launch attempts are the swallowed no-op
and pass 1 itself. -/
lemma convert_pass1_fail (p : String) (w : Bool) (i o : String) (mb : ℚ)
    (pr : String) (a : ℤ) (hl : Bool) (env : OrchEnv) (d : ℚ)
    (l1 : List String) (rc1 : Int)
    (hdur : get_media_duration env.probe = some d) (hd : 0 < d)
    (h1 : env.pass1 = .started l1 rc1) (hrc : rc1 ≠ 0) :
    (convert_to_target_size p w i o mb pr a hl env).1 =
      .error (pass1FailMsg rc1 (String.join l1)) ∧
    (convert_to_target_size p w i o mb pr a hl env).2.1.filter Event.isLaunch =
      [Event.launch ["-passlogfile"],
       Event.launch (pass1Command p i env.passlog (videoKbpsFor mb d a) pr w)] := by
  simp only [convert_to_target_size, hdur]
  rw [if_neg (not_le.mpr hd)]
  simp only [h1, run_command_show_progress]
  rw [if_pos hrc]
  refine ⟨rfl, ?_⟩
  cases hl <;>
    simp [List.filter_append, Event.isLaunch, filter_isLaunch_map_line]

/-- A two-pass run whose pass 1 exits 0 and whose pass 2 runs returns
pass 2's outcome, and leaves exactly the pass-log-prefixed files whose
removal failed. -/
lemma convert_pass2_return (p : String) (w : Bool) (i o : String) (mb : ℚ)
    (pr : String) (a : ℤ) (hl : Bool) (env : OrchEnv) (d : ℚ)
    (l1 l2 : List String) (rc2 : Int)
    (hdur : get_media_duration env.probe = some d) (hd : 0 < d)
    (h1 : env.pass1 = .started l1 0) (h2 : env.pass2 = .started l2 rc2) :
    (convert_to_target_size p w i o mb pr a hl env).1 = .ok (rc2, String.join l2) ∧
    (convert_to_target_size p w i o mb pr a hl env).2.2 =
      env.logsAfterPass2.filter
        (fun f => !(env.passlog.data.isPrefixOf f.data && env.removeOk f)) := by
  simp only [convert_to_target_size, hdur]
  rw [if_neg (not_le.mpr hd)]
  simp only [h1, h2, run_command_show_progress]
  simp only [if_neg (by decide : ¬ ((0 : Int) ≠ 0))]
  exact ⟨by trivial, by trivial⟩

/-! ## Claims -/

/-- C1: for every targetMegabytes m > 0, durationSeconds d > 0 and
audioKbps a ≥ 0, `allocate(m, d, a)` returns the budget whose videoKbps
is `floor(max(100, m * 8192 / d - a))` and whose audioKbps is the input
`a`; in particular `allocate(10, 120, 128)` gives videoKbps 554. -/
theorem C1_allocate_formula (m d : ℚ) (a : ℤ)
    (_hm : 0 < m) (hd : 0 < d) (_ha : 0 ≤ a) :
    allocate m (some d) a = .ok ⟨⌊max 100 (m * 8192 / d - (a : ℚ))⌋, a⟩ ∧
    allocate 10 (some 120) 128 = .ok ⟨554, 128⟩ :=
  ⟨allocate_pos m d a hd, allocate_ten⟩

/-- Witness for C1 at `m = 10`, `d = 120`, `a = 128`. -/
theorem C1_witness :
    0 < (10 : ℚ) ∧ 0 < (120 : ℚ) ∧ 0 ≤ (128 : ℤ) ∧
    (allocate 10 (some 120) 128 =
        .ok ⟨⌊max 100 ((10 : ℚ) * 8192 / 120 - ((128 : ℤ) : ℚ))⌋, 128⟩ ∧
     allocate 10 (some 120) 128 = .ok ⟨554, 128⟩) :=
  ⟨by norm_num, by norm_num, by norm_num,
   C1_allocate_formula 10 120 128 (by norm_num) (by norm_num) (by norm_num)⟩

/-- C4: for every duration d > 0, target m > 0 and audio bitrate a ≥ 0,
the videoKbps computed by `allocate(m, d, a)` is at least 100. -/
theorem C4_floor_invariant (m d : ℚ) (a : ℤ)
    (_hm : 0 < m) (hd : 0 < d) (_ha : 0 ≤ a)
    (b : BitrateBudget) (hb : allocate m (some d) a = .ok b) :
    100 ≤ b.videoKbps := by
  rw [allocate_pos m d a hd] at hb
  cases hb
  show (100 : ℤ) ≤ ⌊max 100 (m * 8192 / d - (a : ℚ))⌋
  rw [Int.le_floor]
  calc ((100 : ℤ) : ℚ) = 100 := by norm_num
    _ ≤ max 100 (m * 8192 / d - (a : ℚ)) := le_max_left _ _

/-- Witness for C4 at `m = 10`, `d = 120`, `a = 128`. -/
theorem C4_witness :
    allocate 10 (some 120) 128 = .ok ⟨554, 128⟩ ∧
    100 ≤ (BitrateBudget.mk 554 128).videoKbps :=
  ⟨allocate_ten,
   C4_floor_invariant 10 120 128 (by norm_num) (by norm_num) (by norm_num) _
     allocate_ten⟩

/-- C5: whenever the duration is unknown or non-positive, the
allocation step fails with the invalid-input error, the whole
target-size run raises that error, and no child process of the run is
ever launched (the event trace is empty). -/
theorem C5_fail_fast (p : String) (w : Bool) (i o : String) (mb : ℚ)
    (pr : String) (a : ℤ) (hl : Bool) (env : OrchEnv)
    (h : get_media_duration env.probe = none ∨
      ∃ d, get_media_duration env.probe = some d ∧ d ≤ 0) :
    allocate mb (get_media_duration env.probe) a = .error durationErrMsg ∧
    (convert_to_target_size p w i o mb pr a hl env).1 = .error durationErrMsg ∧
    (convert_to_target_size p w i o mb pr a hl env).2.1 = [] := by
  rcases h with h | ⟨d, hd, hle⟩
  · simp [allocate, convert_to_target_size, h]
  · simp [allocate, convert_to_target_size, hd, if_pos hle]

/-- Witness for C5: an environment in which both duration queries fail. -/
theorem C5_witness :
    (get_media_duration envDead.probe = none ∨
      ∃ d, get_media_duration envDead.probe = some d ∧ d ≤ 0) ∧
    (allocate 5 (get_media_duration envDead.probe) 128 = .error durationErrMsg ∧
     (convert_to_target_size "ffmpeg" false "in.avi" "out.mp4" 5 "medium" 128
        false envDead).1 = .error durationErrMsg ∧
     (convert_to_target_size "ffmpeg" false "in.avi" "out.mp4" 5 "medium" 128
        false envDead).2.1 = []) :=
  ⟨Or.inl (by decide),
   C5_fail_fast "ffmpeg" false "in.avi" "out.mp4" 5 "medium" 128 false envDead
     (Or.inl (by decide))⟩

/-- C6: the fallback parses a `H:MM:SS.ss` duration field as
`H*3600 + M*60 + S` seconds; a run whose structured query succeeds with
`"83.450000"` yields 83.45 directly, and a run whose structured query
fails but whose diagnostic output contains
`Duration: 00:01:23.45, start: 0.000000, ...` yields 83.45 via the
fallback. -/
theorem C6_duration_parsing :
    (∀ (h m s : String) (hq mq sq : ℚ),
      parseDecimal h = some hq → parseDecimal m = some mq →
      parseDecimal s = some sq →
      hmsToSeconds [h, m, s] = some (hq * 3600 + mq * 60 + sq)) ∧
    get_media_duration envStructured83 = some (83.45 : ℚ) ∧
    get_media_duration envFallback83 = some (83.45 : ℚ) :=
  ⟨fun _ _ _ _ _ _ hh hm hs => hms_formula _ _ _ _ _ _ hh hm hs,
   structured83, fallback83⟩

/-- Witness for C6 at the triple parsed from `Duration: 00:01:23.45`. -/
theorem C6_witness :
    parseDecimal "00" = some 0 ∧ parseDecimal "01" = some 1 ∧
    parseDecimal "23.45" = some (23.45 : ℚ) ∧
    hmsToSeconds ["00", "01", "23.45"] =
      some ((0 : ℚ) * 3600 + 1 * 60 + (23.45 : ℚ)) :=
  ⟨parseDecimal_00, parseDecimal_01, parseDecimal_2345,
   C6_duration_parsing.1 "00" "01" "23.45" 0 1 23.45
     parseDecimal_00 parseDecimal_01 parseDecimal_2345⟩

/-- C7: `get_media_duration` is total over every environment —
including those in which both external queries raise, as for a missing
or corrupt file — and returns the explicit unknown state exactly when
both the structured query and the textual fallback produce nothing. -/
theorem C7_probe_total (env : ProbeEnv) :
    get_media_duration env = none ↔
      probe_via_ffprobe env = none ∧ probe_via_ffmpeg env = none := by
  cases h : probe_via_ffprobe env <;> simp [get_media_duration, h]

/-- Witness for C7: a missing file (probe binary absent, `ffmpeg -i`
raising) yields the unknown state. -/
theorem C7_witness :
    get_media_duration probeDead = none ∧
    probe_via_ffprobe probeDead = none ∧ probe_via_ffmpeg probeDead = none :=
  ⟨(C7_probe_total probeDead).mpr ⟨by decide, by decide⟩, by decide, by decide⟩

/-- C8: `run_command_show_progress` fails (raises) exactly when the
child process cannot be launched; whenever the child runs it returns
the child's real exit code together with the joined captured stderr,
without raising, even for a non-zero exit code. -/
theorem C8_runner_outcome (p : String) (cmd : List String) (hl : Bool) :
    (∀ out : SpawnOutcome,
      (∃ e, (run_command_show_progress p cmd out hl).1 = .error e) ↔
        out = .fileNotFound) ∧
    (∀ (lines : List String) (rc : Int),
      (run_command_show_progress p cmd (.started lines rc) hl).1 =
        .ok (rc, String.join lines)) := by
  constructor
  · intro out
    cases out <;> simp [run_command_show_progress]
  · intro lines rc
    simp [run_command_show_progress]

/-- Witness for C8: a child that runs and exits 1 is reported, not
thrown. -/
theorem C8_witness :
    (run_command_show_progress "ffmpeg" ["-i", "in.avi"]
        (.started ["frame=1\n"] 1) true).1 =
      .ok (1, String.join ["frame=1\n"]) :=
  (C8_runner_outcome "ffmpeg" ["-i", "in.avi"] true).2 ["frame=1\n"] 1

/-- C9: `build_ffmpeg_command` is a pure function — equal inputs give
equal argument lists — and, for arguments that are not themselves flag
strings, the remux (stream-copy) command contains no quality or bitrate
flag (`-crf`, `-b:v`, `-b:a`) while the re-encode command contains no
stream-copy flag (`-c`, `copy`). -/
theorem C9_builder_flags (p i o pr : String) (crf : ℤ) (fs : Bool)
    (hp : p ∉ (["-crf", "-b:v", "-b:a", "-c", "copy"] : List String))
    (hi : i ∉ (["-crf", "-b:v", "-b:a", "-c", "copy"] : List String))
    (ho : o ∉ (["-crf", "-b:v", "-b:a", "-c", "copy"] : List String))
    (hpr : pr ∉ (["-c", "copy"] : List String))
    (hc : toString crf ∉ (["-c", "copy"] : List String)) :
    (∀ (p' i' o' pr' : String) (crf' : ℤ) (fs' r : Bool),
      p' = p → i' = i → o' = o → pr' = pr → crf' = crf → fs' = fs →
      build_ffmpeg_command p' i' o' r crf' pr' fs' =
        build_ffmpeg_command p i o r crf pr fs) ∧
    ("-crf" ∉ build_ffmpeg_command p i o false crf pr fs ∧
     "-b:v" ∉ build_ffmpeg_command p i o false crf pr fs ∧
     "-b:a" ∉ build_ffmpeg_command p i o false crf pr fs) ∧
    ("-c" ∉ build_ffmpeg_command p i o true crf pr fs ∧
     "copy" ∉ build_ffmpeg_command p i o true crf pr fs) := by
  simp only [List.mem_cons, List.not_mem_nil, or_false, not_or] at hp hi ho hpr hc
  refine ⟨?_, ?_, ?_⟩
  · intro p' i' o' pr' crf' fs' r h1 h2 h3 h4 h5 h6
    subst h1; subst h2; subst h3; subst h4; subst h5; subst h6; rfl
  · cases fs <;>
      simp_all [build_ffmpeg_command, List.mem_append, eq_comm]
  · cases fs <;>
      simp_all [build_ffmpeg_command, List.mem_append, eq_comm]

/-- Witness for C9 at the default arguments of the source. -/
theorem C9_witness :
    "ffmpeg" ∉ (["-crf", "-b:v", "-b:a", "-c", "copy"] : List String) ∧
    "in.avi" ∉ (["-crf", "-b:v", "-b:a", "-c", "copy"] : List String) ∧
    "out.mp4" ∉ (["-crf", "-b:v", "-b:a", "-c", "copy"] : List String) ∧
    "medium" ∉ (["-c", "copy"] : List String) ∧
    toString (23 : ℤ) ∉ (["-c", "copy"] : List String) ∧
    ("-crf" ∉ build_ffmpeg_command "ffmpeg" "in.avi" "out.mp4" false 23 "medium" true ∧
     "-b:v" ∉ build_ffmpeg_command "ffmpeg" "in.avi" "out.mp4" false 23 "medium" true ∧
     "-b:a" ∉ build_ffmpeg_command "ffmpeg" "in.avi" "out.mp4" false 23 "medium" true) ∧
    ("-c" ∉ build_ffmpeg_command "ffmpeg" "in.avi" "out.mp4" true 23 "medium" true ∧
     "copy" ∉ build_ffmpeg_command "ffmpeg" "in.avi" "out.mp4" true 23 "medium" true) :=
  ⟨by decide, by decide, by decide, by decide, by decide,
   (C9_builder_flags "ffmpeg" "in.avi" "out.mp4" "medium" 23 true
     (by decide) (by decide) (by decide) (by decide) (by decide)).2.1,
   (C9_builder_flags "ffmpeg" "in.avi" "out.mp4" "medium" 23 true
     (by decide) (by decide) (by decide) (by decide) (by decide)).2.2⟩

/-- C3: in a two-pass run whose pass-1 child exits non-zero, the run
terminates as a failure carrying the pass-1 failure message with the
captured diagnostics, and the pass-2 child is never launched — the only
launch attempts in the trace are the swallowed no-op and pass 1. -/
theorem C3_pass1_short_circuit (p : String) (w : Bool) (i o : String) (mb : ℚ)
    (pr : String) (a : ℤ) (hl : Bool) (env : OrchEnv) (d : ℚ)
    (l1 : List String) (rc1 : Int)
    (hdur : get_media_duration env.probe = some d) (hd : 0 < d)
    (h1 : env.pass1 = .started l1 rc1) (hrc : rc1 ≠ 0) :
    (convert_to_target_size p w i o mb pr a hl env).1 =
      .error (pass1FailMsg rc1 (String.join l1)) ∧
    (convert_to_target_size p w i o mb pr a hl env).2.1.filter Event.isLaunch =
      [Event.launch ["-passlogfile"],
       Event.launch (pass1Command p i env.passlog (videoKbpsFor mb d a) pr w)] :=
  convert_pass1_fail p w i o mb pr a hl env d l1 rc1 hdur hd h1 hrc

/-- Witness for C3: pass 1 exits 1 on a 60-second source. -/
theorem C3_witness :
    get_media_duration envPass1Fails.probe = some 60 ∧ (0 : ℚ) < 60 ∧
    envPass1Fails.pass1 = .started ["err\n"] 1 ∧ (1 : Int) ≠ 0 ∧
    ((convert_to_target_size "ffmpeg" false "in.avi" "out.mp4" 5 "medium" 128
        false envPass1Fails).1 =
      .error (pass1FailMsg 1 (String.join ["err\n"])) ∧
     (convert_to_target_size "ffmpeg" false "in.avi" "out.mp4" 5 "medium" 128
        false envPass1Fails).2.1.filter Event.isLaunch =
      [Event.launch ["-passlogfile"],
       Event.launch (pass1Command "ffmpeg" "in.avi" envPass1Fails.passlog
         (videoKbpsFor 5 60 128) "medium" false)]) :=
  ⟨probeSixty_duration, by decide, rfl, by decide,
   C3_pass1_short_circuit "ffmpeg" false "in.avi" "out.mp4" 5 "medium" 128 false
     envPass1Fails 60 ["err\n"] 1 probeSixty_duration (by decide) rfl (by decide)⟩

/-- C10: in a two-pass run the two phases fail through different
channels — a non-zero pass-1 exit raises (an error result), while once
pass 1 succeeds the run returns pass-2's exit code and captured
diagnostics as a normal value, even when pass 2 exits non-zero. -/
theorem C10_failure_channels (p : String) (w : Bool) (i o : String) (mb : ℚ)
    (pr : String) (a : ℤ) (hl : Bool) (env : OrchEnv) (d : ℚ)
    (hdur : get_media_duration env.probe = some d) (hd : 0 < d) :
    (∀ (l1 : List String) (rc1 : Int), env.pass1 = .started l1 rc1 → rc1 ≠ 0 →
      (convert_to_target_size p w i o mb pr a hl env).1 =
        .error (pass1FailMsg rc1 (String.join l1))) ∧
    (∀ (l1 l2 : List String) (rc2 : Int),
      env.pass1 = .started l1 0 → env.pass2 = .started l2 rc2 →
      (convert_to_target_size p w i o mb pr a hl env).1 =
        .ok (rc2, String.join l2)) :=
  ⟨fun l1 rc1 h1 hrc =>
    (convert_pass1_fail p w i o mb pr a hl env d l1 rc1 hdur hd h1 hrc).1,
   fun l1 l2 rc2 h1 h2 =>
    (convert_pass2_return p w i o mb pr a hl env d l1 l2 rc2 hdur hd h1 h2).1⟩

/-- Witness for C10: pass 1 succeeds, pass 2 exits 3; the run returns
`(3, stderr)` normally. -/
theorem C10_witness :
    get_media_duration envCleanRun.probe = some 60 ∧ (0 : ℚ) < 60 ∧
    envCleanRun.pass1 = .started [] 0 ∧ envCleanRun.pass2 = .started ["out\n"] 3 ∧
    (convert_to_target_size "ffmpeg" false "in.avi" "out.mp4" 5 "medium" 128
        false envCleanRun).1 = .ok (3, String.join ["out\n"]) :=
  ⟨probeSixty_duration, by decide, rfl, rfl,
   (C10_failure_channels "ffmpeg" false "in.avi" "out.mp4" 5 "medium" 128 false
      envCleanRun 60 probeSixty_duration (by decide)).2 [] ["out\n"] 3 rfl rfl⟩

/-- C2, counterexample: a run that reaches pass 1 (its trace contains
the pass-1 launch) but whose pass-1 child exits non-zero skips the
cleanup block entirely — the pass-log files `plog` and `plog-0.log` are
still on disk when the run ends, against the claim that they no longer
exist after every run that reaches pass 1. -/
theorem C2_counterexample :
    (convert_to_target_size "ffmpeg" false "in.avi" "out.mp4" 5 "medium" 128
        false envPass1Fails).2.2 = ["plog", "plog-0.log"] ∧
    Event.launch (pass1Command "ffmpeg" "in.avi" envPass1Fails.passlog
        (videoKbpsFor 5 60 128) "medium" false) ∈
      (convert_to_target_size "ffmpeg" false "in.avi" "out.mp4" 5 "medium" 128
        false envPass1Fails).2.1 := by
  have hdur : get_media_duration envPass1Fails.probe = some 60 := probeSixty_duration
  simp only [convert_to_target_size, hdur]
  rw [if_neg (by norm_num)]
  simp only [show envPass1Fails.pass1 = .started ["err\n"] 1 from rfl,
    run_command_show_progress]
  rw [if_pos (by decide : (1 : Int) ≠ 0)]
  exact ⟨by trivial, by simp⟩

/-- C2, amended: cleanup runs only on the path on which pass 1 exits 0
and the pass-2 child runs; on that path — success or non-zero pass-2
exit alike — every pass-log-prefixed file whose deletion succeeds is
removed, a deletion failure is never escalated (the run still returns
pass 2's outcome), but on a pass-1 failure the pass-log files are not
deleted. -/
theorem C2_cleanup_amended (p : String) (w : Bool) (i o : String) (mb : ℚ)
    (pr : String) (a : ℤ) (hl : Bool) (env : OrchEnv) (d : ℚ)
    (l1 l2 : List String) (rc2 : Int)
    (hdur : get_media_duration env.probe = some d) (hd : 0 < d)
    (h1 : env.pass1 = .started l1 0) (h2 : env.pass2 = .started l2 rc2) :
    (convert_to_target_size p w i o mb pr a hl env).1 = .ok (rc2, String.join l2) ∧
    ∀ f ∈ (convert_to_target_size p w i o mb pr a hl env).2.2,
      env.passlog.data.isPrefixOf f.data = true → env.removeOk f = false := by
  obtain ⟨hres, hlogs⟩ :=
    convert_pass2_return p w i o mb pr a hl env d l1 l2 rc2 hdur hd h1 h2
  refine ⟨hres, ?_⟩
  intro f hf hpre
  rw [hlogs] at hf
  simp only [List.mem_filter] at hf
  rcases hf with ⟨-, hcond⟩
  rw [Bool.not_eq_true', Bool.and_eq_false_iff] at hcond
  rcases hcond with h | h
  · rw [hpre] at h; exact absurd h (by simp)
  · exact h

/-- Witness for the amended C2: a clean run on a 60-second source with
all removals succeeding ends with no remaining pass-log file. -/
theorem C2_witness :
    get_media_duration envCleanRun.probe = some 60 ∧ (0 : ℚ) < 60 ∧
    envCleanRun.pass1 = .started [] 0 ∧ envCleanRun.pass2 = .started ["out\n"] 3 ∧
    ((convert_to_target_size "ffmpeg" false "in.avi" "out.mp4" 5 "medium" 128
        false envCleanRun).1 = .ok (3, String.join ["out\n"]) ∧
     ∀ f ∈ (convert_to_target_size "ffmpeg" false "in.avi" "out.mp4" 5 "medium"
        128 false envCleanRun).2.2,
       envCleanRun.passlog.data.isPrefixOf f.data = true →
         envCleanRun.removeOk f = false) :=
  ⟨probeSixty_duration, by decide, rfl, rfl,
   C2_cleanup_amended "ffmpeg" false "in.avi" "out.mp4" 5 "medium" 128 false
     envCleanRun 60 [] ["out\n"] 3 probeSixty_duration (by decide) rfl rfl⟩

end Conversor
